import Mathlib

/-!
Verification of jsgroth/advent-of-code-2024 against its natural-language
specification.  The Rust sources are shallowly embedded: panics become an
explicit `Panics.panicked` constructor (or `Option.none` inside parsers),
`io::Result` becomes `Except String`, stdout and solver invocations become an
explicit event trace, the environment and the clock become oracle parameters.
Machine integers are modelled as `Nat`/`Int`; every spot where the Rust code
could overflow is either proved in-range or noted.
-/

set_option maxRecDepth 8000

namespace Aoc2024

/-- Result of running code that may panic (Rust `panic!` / `unwrap` / `expect`). -/
inductive Panics (α : Type) where
  | panicked (msg : String)
  | ok (a : α)
deriving DecidableEq, Repr

/-- Observable events of a puzzle binary: the single input-file read, an
invocation of a part solver on an input string, and a line printed to stdout. -/
inductive Event where
  | readFile
  | invoke (part : Nat) (input : String)
  | printLn (line : String)
deriving DecidableEq, Repr

/-- Embeds `read_input` from `src/lib.rs`: `env::args()` yields the program
name first, which is discarded; the next argument is the input filename
(`expect("ARGS: <filename>")` panics when absent); `fs::read_to_string` is the
oracle `fs`, returning the file contents or an io error. -/
def read_input (args : List String) (fs : String → Except String String) :
    Panics (Except String String) :=
  match args.drop 1 with
  | [] => .panicked "ARGS: <filename>"
  | f :: _ => .ok (fs f)

/-- `TIME_ITERATIONS` from `src/lib.rs`. -/
def TIME_ITERATIONS : Nat := 100

/-- Embeds `time_micros` from `src/lib.rs`: the closure is invoked
`TIME_ITERATIONS` times (the generated `invoke` events), each iteration's
elapsed microseconds coming from the clock oracle `measure`; the result is the
accumulated sum divided (integer division) by `TIME_ITERATIONS`. -/
def time_micros (part : Nat) (input : String) (measure : Nat → Nat) :
    List Event × Nat :=
  (List.replicate TIME_ITERATIONS (.invoke part input),
   ((List.range TIME_ITERATIONS).map measure).sum / TIME_ITERATIONS)

/-- The test `env::var("AOCTIME").is_ok_and(|var| !var.is_empty())` from
`run`: the variable must be present and non-empty. -/
def aoctimeEnabled (aoctime : Option String) : Bool :=
  match aoctime with
  | some v => v ≠ ""
  | none => false

/-- Embeds `run` from `src/lib.rs`.  `solve1`/`solve2` with their `Display`
formatters `fmt1`/`fmt2`, the command-line `args`, the filesystem oracle `fs`,
the `AOCTIME` variable, and the two clock oracles are explicit.  The returned
trace lists, in program order: the file read, each solver invocation, and each
line printed to stdout. -/
def run {α β : Type} (solve1 : String → α) (fmt1 : α → String)
    (solve2 : String → β) (fmt2 : β → String)
    (args : List String) (fs : String → Except String String)
    (aoctime : Option String) (measure1 measure2 : Nat → Nat) :
    Panics (Except String (List Event)) :=
  match read_input args fs with
  | .panicked msg => .panicked msg
  | .ok (.error e) => .ok (.error e)
  | .ok (.ok input) =>
    let solution1 := solve1 input
    let solution2 := solve2 input
    let timing : List Event :=
      if aoctimeEnabled aoctime then
        let (ev1, duration1) := time_micros 1 input measure1
        let (ev2, duration2) := time_micros 2 input measure2
        (ev1 ++ [.printLn ("Part 1 time: " ++ toString duration1 ++ "μs")]) ++
          (ev2 ++ [.printLn ("Part 2 time: " ++ toString duration2 ++ "μs")])
      else []
    .ok (.ok ([.readFile, .invoke 1 input, .printLn (fmt1 solution1),
               .invoke 2 input, .printLn (fmt2 solution2)] ++ timing))

/-- The lines printed to stdout, in order, extracted from a trace. -/
def printedLines (trace : List Event) : List String :=
  trace.filterMap (fun e =>
    match e with
    | .printLn s => some s
    | _ => none)

/-- Recognizes an invocation of the given part. -/
def isInvoke (part : Nat) (e : Event) : Bool :=
  match e with
  | .invoke p _ => p = part
  | _ => false

/-- Recognizes the input-file read. -/
def isReadFile (e : Event) : Bool :=
  match e with
  | .readFile => true
  | _ => false

/-- The trace produced by a successful `run` with AOCTIME enabled, at the
concrete instance used to witness the amended timing claim. -/
def c2WitnessTrace : List Event :=
  [.readFile, .invoke 1 "ab", .printLn "2", .invoke 2 "ab", .printLn "ab"] ++
  ((List.replicate TIME_ITERATIONS (Event.invoke 1 "ab") ++
      [.printLn "Part 1 time: 0μs"]) ++
    (List.replicate TIME_ITERATIONS (Event.invoke 2 "ab") ++
      [.printLn "Part 2 time: 0μs"]))

/-! ### Pos2 / Pos3 (`src/pos.rs`, with `Pos2` duplicated in `src/lib.rs`) -/

/-- `pub struct Pos2<T>`. -/
structure Pos2 (T : Type) where
  x : T
  y : T
deriving DecidableEq, Repr

/-- `pub struct Pos3<T>`. -/
structure Pos3 (T : Type) where
  x : T
  y : T
  z : T
deriving DecidableEq, Repr

/-- `impl Add for Pos2<T>` generated by `impl_arithmetic_traits!`. -/
def Pos2.add {T : Type} [Add T] (self rhs : Pos2 T) : Pos2 T :=
  ⟨self.x + rhs.x, self.y + rhs.y⟩

/-- `impl AddAssign for Pos2<T>`: each component updated with `T`'s `+=`;
the returned value is the final state of `self`. -/
def Pos2.add_assign {T : Type} [Add T] (self rhs : Pos2 T) : Pos2 T :=
  { self with x := self.x + rhs.x, y := self.y + rhs.y }

/-- `impl Sub for Pos2<T>`. -/
def Pos2.sub {T : Type} [Sub T] (self rhs : Pos2 T) : Pos2 T :=
  ⟨self.x - rhs.x, self.y - rhs.y⟩

/-- `impl SubAssign for Pos2<T>`. -/
def Pos2.sub_assign {T : Type} [Sub T] (self rhs : Pos2 T) : Pos2 T :=
  { self with x := self.x - rhs.x, y := self.y - rhs.y }

/-- `impl Mul<T> for Pos2<T>`: scalar on the right multiplies each component. -/
def Pos2.mul {T : Type} [Mul T] (self : Pos2 T) (rhs : T) : Pos2 T :=
  ⟨self.x * rhs, self.y * rhs⟩

/-- `impl MulAssign<T> for Pos2<T>`. -/
def Pos2.mul_assign {T : Type} [Mul T] (self : Pos2 T) (rhs : T) : Pos2 T :=
  { self with x := self.x * rhs, y := self.y * rhs }

/-- `impl Add for Pos3<T>`. -/
def Pos3.add {T : Type} [Add T] (self rhs : Pos3 T) : Pos3 T :=
  ⟨self.x + rhs.x, self.y + rhs.y, self.z + rhs.z⟩

/-- `impl AddAssign for Pos3<T>`. -/
def Pos3.add_assign {T : Type} [Add T] (self rhs : Pos3 T) : Pos3 T :=
  { self with x := self.x + rhs.x, y := self.y + rhs.y, z := self.z + rhs.z }

/-- `impl Sub for Pos3<T>`. -/
def Pos3.sub {T : Type} [Sub T] (self rhs : Pos3 T) : Pos3 T :=
  ⟨self.x - rhs.x, self.y - rhs.y, self.z - rhs.z⟩

/-- `impl SubAssign for Pos3<T>`. -/
def Pos3.sub_assign {T : Type} [Sub T] (self rhs : Pos3 T) : Pos3 T :=
  { self with x := self.x - rhs.x, y := self.y - rhs.y, z := self.z - rhs.z }

/-- `impl Mul<T> for Pos3<T>`. -/
def Pos3.mul {T : Type} [Mul T] (self : Pos3 T) (rhs : T) : Pos3 T :=
  ⟨self.x * rhs, self.y * rhs, self.z * rhs⟩

/-- `impl MulAssign<T> for Pos3<T>`. -/
def Pos3.mul_assign {T : Type} [Mul T] (self : Pos3 T) (rhs : T) : Pos3 T :=
  { self with x := self.x * rhs, y := self.y * rhs, z := self.z * rhs }

/-! ### Grid (`src/grid.rs`) -/

/-- `pub struct Grid<T>(pub Vec<Vec<T>>)`. -/
structure Grid (T : Type) where
  cells : List (List T)
deriving DecidableEq, Repr

/-- `Grid::new(rows, cols)`: `vec![vec![T::default(); cols]; rows]`
(Rust `Default` modelled by `Inhabited`). -/
def Grid.new (T : Type) [Inhabited T] (rows cols : Nat) : Grid T :=
  ⟨List.replicate rows (List.replicate cols (default : T))⟩

/-- `Grid::rows`: `self.0.len()`. -/
def Grid.rows {T : Type} (g : Grid T) : Nat := g.cells.length

/-- `Grid::cols`: `self.0[0].len()`; the row-0 index panics on a grid with
zero rows. -/
def Grid.cols {T : Type} (g : Grid T) : Panics Nat :=
  match g.cells with
  | [] => .panicked "index out of bounds"
  | r :: _ => .ok r.length

/-! ### Day 25 (`src/bin/day25.rs`) -/

namespace Day25

/-- The part-2 closure passed to `run` in day 25's `main`:
`|_input| String::new()`. -/
def solve_part_2 (_input : String) : String := ""

end Day25

/-! ### Day 22 (`src/bin/day22.rs`) -/

namespace Day22

/-- `next_secret_number` from `src/bin/day22.rs`.  The Rust code works in
`i64`; on the 24-bit range every intermediate value is non-negative and below
`2^36`, where i64 `^`, `*`, `/` and `%` agree with the `Nat` operations used
here. -/
def next_secret_number (number : Nat) : Nat :=
  let M : Nat := 16777216
  let n1 := (Nat.xor number (number * 64)) % M
  let n2 := (Nat.xor n1 (n1 / 32)) % M
  (Nat.xor n2 (n2 * 2048)) % M

/-- The per-line loop of `solve_part_1`: 2000 applications of
`next_secret_number`. -/
def iterate_secret (n : Nat) (k : Nat) : Nat := next_secret_number^[k] n

/-- The sum computed by `solve_part_1` over the parsed starting secrets. -/
def sum_part_1 (ns : List Nat) : Nat :=
  (ns.map (fun n => iterate_secret n 2000)).sum

end Day22

/-! ### String helpers shared by the per-day parsers -/

/-- Split a character list at separators recognized by `p`; separators are
dropped and empty pieces kept (the behaviour of Rust `str::split`). -/
def splitOnPred (p : Char → Bool) : List Char → List (List Char)
  | [] => [[]]
  | c :: cs =>
    match splitOnPred p cs with
    | [] => [[]]
    | g :: gs => if p c then [] :: g :: gs else (c :: g) :: gs

/-- Rust `str::lines`: split at `\n`; every piece except the last came from a
line ending and has a trailing `\r` stripped (so `\r\n` endings are handled);
a final empty piece from a terminating newline is dropped. -/
def rustLines (s : String) : List (List Char) :=
  let gs := splitOnPred (fun c => c = '\n') s.data
  let stripped := gs.dropLast.map (fun g =>
    if g.getLast? = some '\r' then g.dropLast else g)
  match gs.getLast? with
  | some [] => stripped
  | some lastPiece => stripped ++ [lastPiece]
  | none => stripped

/-- Rust `u8::is_ascii_whitespace` (space, tab, newline, form feed,
carriage return). -/
def isAsciiWhitespace (c : Char) : Bool :=
  c = ' ' ∨ c = '\t' ∨ c = '\n' ∨ c = '\x0c' ∨ c = '\r'

/-- Rust `str::split_ascii_whitespace`: split on ASCII whitespace, empty
pieces skipped. -/
def splitAsciiWhitespace (l : List Char) : List (List Char) :=
  (splitOnPred isAsciiWhitespace l).filter (fun g => g ≠ [])

/-- The numeric value of a non-empty all-digit character list, else `none`. -/
def digitsVal : List Char → Option Nat
  | [] => none
  | cs =>
    if cs.all Char.isDigit then
      some (cs.foldl (fun a c => a * 10 + (c.toNat - 48)) 0)
    else none

/-- Rust signed-integer parsing before the range check: an optional `+`/`-`
sign followed by one or more decimal digits. -/
def parseIntSign : List Char → Option Int
  | '+' :: rest => (digitsVal rest).map (fun n => (n : Int))
  | '-' :: rest => (digitsVal rest).map (fun n => -(n : Int))
  | cs => (digitsVal cs).map (fun n => (n : Int))

/-- Rust `str::parse::<i32>`: parse and require the i32 range. -/
def parse_i32 (cs : List Char) : Option Int :=
  (parseIntSign cs).bind (fun v =>
    if -(2 ^ 31) ≤ v ∧ v ≤ 2 ^ 31 - 1 then some v else none)

/-! ### Day 1 (`src/bin/day1.rs`) -/

namespace Day1

/-- The per-line body of day 1's `parse_input`: take two
whitespace-separated tokens and parse each as i32; every `unwrap` panic is
`none`. -/
def parse_line (line : List Char) : Option (Int × Int) := do
  let toks := splitAsciiWhitespace line
  let t0 ← toks.get? 0
  let l ← parse_i32 t0
  let t1 ← toks.get? 1
  let r ← parse_i32 t1
  pure (l, r)

/-- Panic-propagating traversal: the whole parse fails as soon as one line
fails (a Rust panic aborts the iteration). -/
def mapLines {α β : Type} (f : α → Option β) : List α → Option (List β)
  | [] => some []
  | x :: xs => do
    let y ← f x
    let ys ← mapLines f xs
    pure (y :: ys)

/-- Day 1's `parse_input`: non-empty lines parsed pairwise and unzipped;
`none` models a parsing panic. -/
def parse_input (input : String) : Option (List Int × List Int) :=
  (mapLines parse_line ((rustLines input).filter (fun l => l ≠ []))).map
    List.unzip

/-- The day's expected input format (from the puzzle statement): each
non-empty line is exactly two whitespace-separated i32 tokens. -/
def line_well_formed (line : List Char) : Bool :=
  match splitAsciiWhitespace line with
  | [t0, t1] => (parse_i32 t0).isSome ∧ (parse_i32 t1).isSome
  | _ => false

/-- Whether the whole input matches the day-1 expected format. -/
def input_well_formed (input : String) : Bool :=
  ((rustLines input).filter (fun l => l ≠ [])).all line_well_formed

end Day1

/-! ### Day 12 (`src/bin/day12.rs`) -/

namespace Day12

/-- `map[i][j]` (indexing is in-bounds at every use site on the rectangular
grids these functions receive, so the out-of-range default is never taken). -/
def get2 (m : List (List Nat)) (i j : Nat) : Nat := (m.getD i []).getD j 0

/-- `counted[i][j]` for the boolean visited matrices. -/
def get2b (m : List (List Bool)) (i j : Nat) : Bool := (m.getD i []).getD j false

/-- `m[i][j] = v`. -/
def set2 {α : Type} (m : List (List α)) (i j : Nat) (v : α) : List (List α) :=
  m.set i ((m.getD i []).set j v)

/-- `map[0].len()` as used for column bounds. -/
def colsOf (m : List (List Nat)) : Nat := (m.getD 0 []).length

/-- Day 12's `parse_input`: non-empty lines as byte rows (`str::as_bytes`;
the inputs are ASCII, where bytes and chars coincide). -/
def parse_input (input : String) : List (List Nat) :=
  ((rustLines input).filter (fun l => l ≠ [])).map (fun l => l.map Char.toNat)

/-- The row-major traversal `for i in 0..map.len() { for j in 0..map[i].len() }`. -/
def indicesRM (map : List (List Nat)) : List (Nat × Nat) :=
  (List.range map.length).flatMap (fun i =>
    (List.range ((map.getD i []).length)).map (fun j => (i, j)))

/-- The column-major traversal `for j in 0..map[0].len() { for i in 0..map.len() }`. -/
def indicesCM (map : List (List Nat)) : List (Nat × Nat) :=
  (List.range (colsOf map)).flatMap (fun j =>
    (List.range map.length).map (fun i => (i, j)))

/-- `floodfill` from day 12, with explicit fuel: the Rust recursion marks a
fresh zero cell on every call, so any fuel exceeding the cell count makes the
fuel guard unreachable.  The four directions `(-1,0), (0,-1), (1,0), (0,1)`
are unrolled in source order. -/
def floodfill (map : List (List Nat)) :
    Nat → Nat → Nat → Nat → Nat → List (List Nat) → List (List Nat)
  | 0, _, _, _, _, regions => regions
  | fuel + 1, i, j, current_region, current_char, regions0 =>
    let regions := set2 regions0 i j current_region
    let tryDir := fun (regions : List (List Nat)) (di dj : Int) =>
      let ii : Int := (i : Int) + di
      let jj : Int := (j : Int) + dj
      if 0 ≤ ii ∧ ii < (map.length : Int) ∧
          0 ≤ jj ∧ jj < (colsOf map : Int) ∧
          get2 regions ii.toNat jj.toNat = 0 ∧
          get2 map ii.toNat jj.toNat = current_char then
        floodfill map fuel ii.toNat jj.toNat current_region current_char
          regions
      else regions
    let r1 := tryDir regions (-1) 0
    let r2 := tryDir r1 0 (-1)
    let r3 := tryDir r2 1 0
    tryDir r3 0 1

/-- Fuel that strictly exceeds the cell count. -/
def fuelFor (map : List (List Nat)) : Nat := (map.map List.length).sum + 1

/-- The region-labelling loop of `build_region_and_area_maps`: scan cells in
row-major order, flood-filling each still-zero cell with the next region id
(starting from 1). -/
def assign_regions (map : List (List Nat)) : List (List Nat) :=
  ((indicesRM map).foldl
    (fun (acc : List (List Nat) × Nat) (ij : Nat × Nat) =>
      if get2 acc.1 ij.1 ij.2 = 0 then
        (floodfill map (fuelFor map) ij.1 ij.2 acc.2 (get2 map ij.1 ij.2)
          acc.1, acc.2 + 1)
      else acc)
    (List.replicate map.length (List.replicate (colsOf map) 0), 1)).1

/-- The number of cells labelled `r` — the value `counts[r]` of the
occurrence-counting hash map in `build_region_and_area_maps`. -/
def countIn (regions : List (List Nat)) (r : Nat) : Nat :=
  (regions.map (fun row => (row.filter (fun v => v = r)).length)).sum

/-- `build_region_and_area_maps`: the region matrix and, per cell, the area
(total cell count) of that cell's region. -/
def build_region_and_area_maps (map : List (List Nat)) :
    List (List Nat) × List (List Nat) :=
  let regions := assign_regions map
  (regions, regions.map (fun row => row.map (fun r => countIn regions r)))

/-- `solve_part_1`: for every cell and each of the four directions, add the
cell's region area when the neighbour is out of bounds or a different plant
type.  (The u32 totals stay far below `2^32` on the evaluated inputs.) -/
def solve_part_1 (input : String) : Nat :=
  let map := parse_input input
  let area_map := (build_region_and_area_maps map).2
  (indicesRM map).foldl (fun total ij =>
    ([(-1, 0), (0, -1), (1, 0), (0, 1)] : List (Int × Int)).foldl
      (fun total didj =>
        let ii : Int := (ij.1 : Int) + didj.1
        let jj : Int := (ij.2 : Int) + didj.2
        if ¬(0 ≤ ii ∧ ii < (map.length : Int)) ∨
            ¬(0 ≤ jj ∧ jj < (colsOf map : Int)) ∨
            get2 map ii.toNat jj.toNat ≠ get2 map ij.1 ij.2 then
          total + get2 area_map ij.1 ij.2
        else total)
      total)
    0

/-- The `while` loop scanning downward for a left edge in `solve_part_2`:
advance while the cell is unvisited, in the region, and has no same-region
cell to its left; cells passed are marked in `counted`. -/
def scan_left (region_map : List (List Nat)) (rows region j : Nat) :
    Nat → Nat → List (List Bool) → Nat × List (List Bool)
  | 0, ii, counted => (ii, counted)
  | fuel + 1, ii, counted =>
    if ii < rows ∧ get2b counted ii j = false ∧
        get2 region_map ii j = region ∧
        (j = 0 ∨ get2 region_map ii (j - 1) ≠ region) then
      scan_left region_map rows region j fuel (ii + 1) (set2 counted ii j true)
    else (ii, counted)

/-- The downward scan for a right edge (`j == map[0].len() - 1` or a
different region to the right). -/
def scan_right (region_map : List (List Nat)) (rows cols region j : Nat) :
    Nat → Nat → List (List Bool) → Nat × List (List Bool)
  | 0, ii, counted => (ii, counted)
  | fuel + 1, ii, counted =>
    if ii < rows ∧ get2b counted ii j = false ∧
        get2 region_map ii j = region ∧
        (j = cols - 1 ∨ get2 region_map ii (j + 1) ≠ region) then
      scan_right region_map rows cols region j fuel (ii + 1)
        (set2 counted ii j true)
    else (ii, counted)

/-- The rightward scan for a top edge (`i == 0` or a different region
above); `rowLen` is `map[i].len()`. -/
def scan_top (region_map : List (List Nat)) (rowLen region i : Nat) :
    Nat → Nat → List (List Bool) → Nat × List (List Bool)
  | 0, jj, counted => (jj, counted)
  | fuel + 1, jj, counted =>
    if jj < rowLen ∧ get2b counted i jj = false ∧
        get2 region_map i jj = region ∧
        (i = 0 ∨ get2 region_map (i - 1) jj ≠ region) then
      scan_top region_map rowLen region i fuel (jj + 1)
        (set2 counted i jj true)
    else (jj, counted)

/-- The rightward scan for a bottom edge (`i == map.len() - 1` or a
different region below). -/
def scan_bottom (region_map : List (List Nat)) (rowLen rows region i : Nat) :
    Nat → Nat → List (List Bool) → Nat × List (List Bool)
  | 0, jj, counted => (jj, counted)
  | fuel + 1, jj, counted =>
    if jj < rowLen ∧ get2b counted i jj = false ∧
        get2 region_map i jj = region ∧
        (i = rows - 1 ∨ get2 region_map (i + 1) jj ≠ region) then
      scan_bottom region_map rowLen rows region i fuel (jj + 1)
        (set2 counted i jj true)
    else (jj, counted)

/-- `*side_count.entry(region).or_default() += 1` on an association list. -/
def bump (sc : List (Nat × Nat)) (r : Nat) : List (Nat × Nat) :=
  match sc with
  | [] => [(r, 1)]
  | (k, v) :: rest => if k = r then (k, v + 1) :: rest else (k, v) :: bump rest r

/-- Association-list lookup with the hash-map default 0. -/
def lookupD (sc : List (Nat × Nat)) (r : Nat) : Nat :=
  match sc with
  | [] => 0
  | (k, v) :: rest => if k = r then v else lookupD rest r

/-- `HashMap::insert` (replace on existing key) on an association list. -/
def insertA (m : List (Nat × Nat)) (k v : Nat) : List (Nat × Nat) :=
  match m with
  | [] => [(k, v)]
  | (k0, v0) :: rest =>
    if k0 = k then (k0, v) :: rest else (k0, v0) :: insertA rest k v

/-- The vertical-edge pass of `solve_part_2`: row-major over cells, scanning
down for uncounted left and right edges, bumping the region's side count once
per maximal edge found. -/
def vertical_pass (map region_map : List (List Nat))
    (sc0 : List (Nat × Nat)) : List (Nat × Nat) :=
  let rows := map.length
  let cols := colsOf map
  let init : List (List Bool) := List.replicate rows (List.replicate cols false)
  ((indicesRM map).foldl
    (fun (st : List (List Bool) × List (List Bool) × List (Nat × Nat))
        (ij : Nat × Nat) =>
      let region := get2 region_map ij.1 ij.2
      let s1 := scan_left region_map rows region ij.2 (rows + 1) ij.1 st.1
      let sc1 := if s1.1 ≠ ij.1 then bump st.2.2 region else st.2.2
      let s2 := scan_right region_map rows cols region ij.2 (rows + 1) ij.1
        st.2.1
      let sc2 := if s2.1 ≠ ij.1 then bump sc1 region else sc1
      (s1.2, s2.2, sc2))
    (init, init, sc0)).2.2

/-- The horizontal-edge pass of `solve_part_2`: column-major over cells,
scanning right for uncounted top and bottom edges. -/
def horizontal_pass (map region_map : List (List Nat))
    (sc0 : List (Nat × Nat)) : List (Nat × Nat) :=
  let rows := map.length
  let cols := colsOf map
  let init : List (List Bool) := List.replicate rows (List.replicate cols false)
  ((indicesCM map).foldl
    (fun (st : List (List Bool) × List (List Bool) × List (Nat × Nat))
        (ij : Nat × Nat) =>
      let region := get2 region_map ij.1 ij.2
      let rowLen := (map.getD ij.1 []).length
      let s1 := scan_top region_map rowLen region ij.1 (cols + 1) ij.2 st.1
      let sc1 := if s1.1 ≠ ij.2 then bump st.2.2 region else st.2.2
      let s2 := scan_bottom region_map rowLen rows region ij.1 (cols + 1) ij.2
        st.2.1
      let sc2 := if s2.1 ≠ ij.2 then bump sc1 region else sc1
      (s1.2, s2.2, sc2))
    (init, init, sc0)).2.2

/-- `solve_part_2`: count maximal straight edges (sides) per region via the
two passes, rebuild `region_to_area` by inserting every cell's (region, area)
pair, and total `sides * area` over the resulting entries.  (Summing the
association list matches summing the Rust hash map: one entry per distinct
region, and addition is commutative.) -/
def solve_part_2 (input : String) : Nat :=
  let map := parse_input input
  let rm := build_region_and_area_maps map
  let sc := horizontal_pass map rm.1 (vertical_pass map rm.1 [])
  let r2a := (indicesRM map).foldl
    (fun m ij => insertA m (get2 rm.1 ij.1 ij.2) (get2 rm.2 ij.1 ij.2)) []
  (r2a.map (fun kv => lookupD sc kv.1 * kv.2)).sum

/-- Modelled from the spec: the sample file `sample/day12-3.txt` referenced by
day 12's tests is not under `src/`; the spec's golden value ("a given grid
layout must yield answer 1930") identifies it as the large example grid of the
Advent of Code 2024 day 12 puzzle, reproduced here. -/
def sample3 : String :=
  "RRRRIICCFF\n" ++ "RRRRIICCCF\n" ++ "VVRRRCCFFF\n" ++ "VVRCCCJFFF\n" ++
  "VVVVCJJCFE\n" ++ "VVIVCCJJEE\n" ++ "VVIIICJJEE\n" ++ "MIIIIIJJEE\n" ++
  "MIIISIJEEE\n" ++ "MMMISSJEEE\n"

end Day12

end Aoc2024

namespace Aoc2024

/-- Helper: the exact trace of a successful `run`. -/
theorem run_trace_eq {α β : Type}
    (solve1 : String → α) (fmt1 : α → String)
    (solve2 : String → β) (fmt2 : β → String)
    (prog fname : String) (rest : List String)
    (fs : String → Except String String) (aoctime : Option String)
    (measure1 measure2 : Nat → Nat) (input : String) (trace : List Event)
    (hfs : fs fname = .ok input)
    (hrun : run solve1 fmt1 solve2 fmt2 (prog :: fname :: rest) fs aoctime
      measure1 measure2 = .ok (.ok trace)) :
    trace =
      [.readFile, .invoke 1 input, .printLn (fmt1 (solve1 input)),
       .invoke 2 input, .printLn (fmt2 (solve2 input))] ++
      (if aoctimeEnabled aoctime then
        (List.replicate TIME_ITERATIONS (Event.invoke 1 input) ++
          [.printLn ("Part 1 time: " ++
            toString (((List.range TIME_ITERATIONS).map measure1).sum /
              TIME_ITERATIONS) ++ "μs")]) ++
        (List.replicate TIME_ITERATIONS (Event.invoke 2 input) ++
          [.printLn ("Part 2 time: " ++
            toString (((List.range TIME_ITERATIONS).map measure2).sum /
              TIME_ITERATIONS) ++ "μs")])
      else []) := by
  unfold run read_input time_micros at hrun
  simp only [List.drop_succ_cons, List.drop_zero, hfs] at hrun
  cases h : aoctimeEnabled aoctime <;> simp [h] at hrun <;> exact hrun.symm

/-- C1: when the file read succeeds, the trace of `run` starts with the file
read, the part-1 invocation, the part-1 answer line, the part-2 invocation and
the part-2 answer line, in that order (so the part-1 answer is printed before
the part-2 solver is invoked); the first two printed lines are the two
formatted answers; the file is read exactly once; and every solver invocation
in the whole trace (timing reruns included) uses the one input text read. -/
theorem run_prints_answers_in_order {α β : Type}
    (solve1 : String → α) (fmt1 : α → String)
    (solve2 : String → β) (fmt2 : β → String)
    (prog fname : String) (rest : List String)
    (fs : String → Except String String) (aoctime : Option String)
    (measure1 measure2 : Nat → Nat) (input : String) (trace : List Event)
    (hfs : fs fname = .ok input)
    (hrun : run solve1 fmt1 solve2 fmt2 (prog :: fname :: rest) fs aoctime
      measure1 measure2 = .ok (.ok trace)) :
    trace.take 5 = [.readFile, .invoke 1 input, .printLn (fmt1 (solve1 input)),
      .invoke 2 input, .printLn (fmt2 (solve2 input))] ∧
    (printedLines trace).take 2 = [fmt1 (solve1 input), fmt2 (solve2 input)] ∧
    (trace.filter isReadFile).length = 1 ∧
    (∀ p inp, Event.invoke p inp ∈ trace → inp = input) := by
  have htrace := run_trace_eq solve1 fmt1 solve2 fmt2 prog fname rest fs
    aoctime measure1 measure2 input trace hfs hrun
  subst htrace
  refine ⟨?_, ?_, ?_, ?_⟩
  · cases h : aoctimeEnabled aoctime <;> simp [h]
  · cases h : aoctimeEnabled aoctime <;>
      simp [h, printedLines, List.filterMap_append]
  · cases h : aoctimeEnabled aoctime <;>
      simp [h, isReadFile, List.filter_append, List.filter_replicate]
  · intro p inp hmem
    cases h : aoctimeEnabled aoctime <;>
      simp only [h, if_true, if_false, Bool.false_eq_true, List.append_nil,
        List.mem_append, List.mem_cons, List.not_mem_nil, or_false,
        List.mem_singleton, List.mem_replicate] at hmem
    · rcases hmem with h1 | h1 | h1 | h1 | h1 <;>
        (injection h1; try assumption)
    · rcases hmem with (h1 | h1 | h1 | h1 | h1) | (⟨_, h1⟩ | h1) | (⟨_, h1⟩ | h1) <;>
        (injection h1; try assumption)

/-- Witness for `run_prints_answers_in_order` at a concrete instance. -/
theorem run_prints_answers_in_order_witness :
    ((fun _ => Except.ok "abc" : String → Except String String) "in.txt" =
      .ok "abc") ∧
    ([Event.readFile, .invoke 1 "abc", .printLn "3", .invoke 2 "abc",
        .printLn "abc"].take 5 =
      [.readFile, .invoke 1 "abc", .printLn (toString ("abc".length)),
       .invoke 2 "abc", .printLn (id "abc")]) := by
  refine ⟨rfl, ?_⟩
  have h := run_prints_answers_in_order
    (fun s => s.length) (fun n => toString n) (fun s => s) (fun s => s)
    "prog" "in.txt" [] (fun _ => Except.ok "abc") none (fun _ => 0) (fun _ => 0)
    "abc"
    [Event.readFile, .invoke 1 "abc", .printLn "3", .invoke 2 "abc",
     .printLn "abc"]
    rfl rfl
  exact h.1

/-- C2 counterexample: the environment variable AOCTIME set to the empty
string IS set (`isSome`), yet `run` performs no timing reruns and prints no
timing lines — the code additionally requires the value to be non-empty
(`is_ok_and(.not_is_empty)`).  The claim "for every environment in which
AOCTIME is set, timing output is produced" is therefore false. -/
theorem run_timing_counterexample :
    (some "" : Option String).isSome = true ∧
    run (fun s : String => s.length) (fun n => toString n)
      (fun s => s) (fun s => s)
      ["prog", "in.txt"] (fun _ => Except.ok "ab") (some "")
      (fun _ => 0) (fun _ => 0) =
      .ok (.ok [.readFile, .invoke 1 "ab", .printLn "2", .invoke 2 "ab",
        .printLn "ab"]) :=
  ⟨rfl, rfl⟩

/-- C2 amended: when AOCTIME is set to a NON-EMPTY value, `run` re-runs each
solver exactly `TIME_ITERATIONS = 100` additional times and prints, for each
part, the integer mean of the 100 measured durations in microseconds; when
AOCTIME is unset or set to the empty string, each solver runs once and the
only printed lines are the two answers. -/
theorem run_timing_amended {α β : Type}
    (solve1 : String → α) (fmt1 : α → String)
    (solve2 : String → β) (fmt2 : β → String)
    (prog fname : String) (rest : List String)
    (fs : String → Except String String) (aoctime : Option String)
    (measure1 measure2 : Nat → Nat) (input : String) (trace : List Event)
    (hfs : fs fname = .ok input)
    (hrun : run solve1 fmt1 solve2 fmt2 (prog :: fname :: rest) fs aoctime
      measure1 measure2 = .ok (.ok trace)) :
    (aoctimeEnabled aoctime = true →
      (trace.filter (isInvoke 1)).length = 1 + TIME_ITERATIONS ∧
      (trace.filter (isInvoke 2)).length = 1 + TIME_ITERATIONS ∧
      Event.printLn ("Part 1 time: " ++
        toString (((List.range TIME_ITERATIONS).map measure1).sum /
          TIME_ITERATIONS) ++ "μs") ∈ trace ∧
      Event.printLn ("Part 2 time: " ++
        toString (((List.range TIME_ITERATIONS).map measure2).sum /
          TIME_ITERATIONS) ++ "μs") ∈ trace) ∧
    (aoctimeEnabled aoctime = false →
      (trace.filter (isInvoke 1)).length = 1 ∧
      (trace.filter (isInvoke 2)).length = 1 ∧
      printedLines trace = [fmt1 (solve1 input), fmt2 (solve2 input)]) := by
  have htrace := run_trace_eq solve1 fmt1 solve2 fmt2 prog fname rest fs
    aoctime measure1 measure2 input trace hfs hrun
  subst htrace
  constructor
  · intro h
    simp [h, isInvoke, List.filter_append, List.filter_replicate,
      Nat.add_comm]
  · intro h
    simp [h, isInvoke, printedLines, List.filter_append, List.filterMap_append]

/-- Witness for `run_timing_amended` with AOCTIME set to a non-empty value. -/
theorem run_timing_amended_witness :
    run (fun s : String => s.length) (fun n => toString n)
      (fun s => s) (fun s => s)
      ["prog", "in.txt"] (fun _ => Except.ok "ab") (some "x")
      (fun _ => 0) (fun _ => 0) = .ok (.ok c2WitnessTrace) ∧
    (c2WitnessTrace.filter (isInvoke 1)).length = 1 + TIME_ITERATIONS ∧
    (c2WitnessTrace.filter (isInvoke 2)).length = 1 + TIME_ITERATIONS ∧
    Event.printLn "Part 1 time: 0μs" ∈ c2WitnessTrace ∧
    Event.printLn "Part 2 time: 0μs" ∈ c2WitnessTrace := by
  have hrun : run (fun s : String => s.length) (fun n => toString n)
      (fun s => s) (fun s => s)
      ["prog", "in.txt"] (fun _ => Except.ok "ab") (some "x")
      (fun _ => 0) (fun _ => 0) = .ok (.ok c2WitnessTrace) := by
    unfold c2WitnessTrace
    rfl
  refine ⟨hrun, ?_⟩
  have h := (run_timing_amended (fun s : String => s.length)
    (fun n => toString n) (fun s => s) (fun s => s)
    "prog" "in.txt" [] (fun _ => Except.ok "ab") (some "x")
    (fun _ => 0) (fun _ => 0) "ab" c2WitnessTrace rfl hrun).1 rfl
  simpa using h

/-- Helper: `mapLines` fails as soon as one element fails. -/
theorem mapLines_none_of_mem {α β : Type} (f : α → Option β) :
    ∀ (l : List α) (a : α), a ∈ l → f a = none →
      Day1.mapLines f l = none := by
  intro l
  induction l with
  | nil => intro a ha; cases ha
  | cons x xs ih =>
    intro a ha hnone
    rcases List.mem_cons.mp ha with rfl | ha
    · simp [Day1.mapLines, hnone]
    · cases hfx : f x <;> simp [Day1.mapLines, hfx, ih a ha hnone]

/-- C3 counterexample: `"1 2 x"` does not match day 1's expected input format
(a line of exactly two integer tokens), yet `parse_input` does not panic — it
silently ignores the extra token and returns the parsed pair.  So "every
malformed input causes a panic" is false as stated. -/
theorem day1_malformed_accepted_counterexample :
    Day1.input_well_formed "1 2 x" = false ∧
    Day1.parse_input "1 2 x" = some ([1], [2]) :=
  ⟨rfl, rfl⟩

/-- C3 amended: an input in which some non-empty line is missing one of its
two required tokens, or whose first or second token fails to parse as an i32,
makes day 1's `parse_input` panic (modelled as `none`); there is no recovery
path.  (Malformed inputs that merely carry extra trailing tokens on a line are
accepted silently.) -/
theorem day1_parse_panics_amended (input : String)
    (h : ∃ line ∈ (rustLines input).filter (fun l => l ≠ []),
      Day1.parse_line line = none) :
    Day1.parse_input input = none := by
  obtain ⟨line, hmem, hnone⟩ := h
  unfold Day1.parse_input
  rw [mapLines_none_of_mem Day1.parse_line _ line hmem hnone]
  rfl

/-- Witness for `day1_parse_panics_amended`: on `"1 x"` the second token is
not numeric and parsing panics. -/
theorem day1_parse_panics_amended_witness :
    Day1.parse_input "1 x" = none :=
  day1_parse_panics_amended "1 x" ⟨['1', ' ', 'x'], by decide, by decide⟩

/-- C5: for every component type with the needed arithmetic, `Pos2`/`Pos3`
addition and subtraction are componentwise, scalar multiplication multiplies
every component, and each compound-assignment operator leaves the value equal
to the corresponding binary operator applied to the old value. -/
theorem pos_arithmetic_componentwise {T : Type} [Add T] [Sub T] [Mul T]
    (a b : Pos2 T) (u v : Pos3 T) (k : T) :
    (Pos2.add a b).x = a.x + b.x ∧ (Pos2.add a b).y = a.y + b.y ∧
    (Pos2.sub a b).x = a.x - b.x ∧ (Pos2.sub a b).y = a.y - b.y ∧
    (Pos2.mul a k).x = a.x * k ∧ (Pos2.mul a k).y = a.y * k ∧
    Pos2.add_assign a b = Pos2.add a b ∧
    Pos2.sub_assign a b = Pos2.sub a b ∧
    Pos2.mul_assign a k = Pos2.mul a k ∧
    (Pos3.add u v).x = u.x + v.x ∧ (Pos3.add u v).y = u.y + v.y ∧
    (Pos3.add u v).z = u.z + v.z ∧
    (Pos3.sub u v).x = u.x - v.x ∧ (Pos3.sub u v).y = u.y - v.y ∧
    (Pos3.sub u v).z = u.z - v.z ∧
    (Pos3.mul u k).x = u.x * k ∧ (Pos3.mul u k).y = u.y * k ∧
    (Pos3.mul u k).z = u.z * k ∧
    Pos3.add_assign u v = Pos3.add u v ∧
    Pos3.sub_assign u v = Pos3.sub u v ∧
    Pos3.mul_assign u k = Pos3.mul u k :=
  ⟨rfl, rfl, rfl, rfl, rfl, rfl, rfl, rfl, rfl, rfl, rfl, rfl, rfl, rfl, rfl,
   rfl, rfl, rfl, rfl, rfl, rfl⟩

/-- C6: `read_input` panics with `"ARGS: <filename>"` when no command-line
argument follows the program name; when the named file cannot be read it
returns the io error as a structured `Err`; otherwise it returns the file
contents. -/
theorem read_input_behavior (prog fname : String) (rest : List String)
    (fs : String → Except String String) (s e : String) :
    read_input [prog] fs = .panicked "ARGS: <filename>" ∧
    (fs fname = .error e →
      read_input (prog :: fname :: rest) fs = .ok (.error e)) ∧
    (fs fname = .ok s →
      read_input (prog :: fname :: rest) fs = .ok (.ok s)) := by
  refine ⟨rfl, ?_, ?_⟩ <;> intro h <;> simp [read_input, h]

/-- Witness for `read_input_behavior` on a concrete two-file filesystem. -/
theorem read_input_behavior_witness :
    read_input ["prog"]
      (fun f => if f = "in.txt" then .ok "hello" else .error "no such file") =
      .panicked "ARGS: <filename>" ∧
    read_input ["prog", "bad.txt"]
      (fun f => if f = "in.txt" then .ok "hello" else .error "no such file") =
      .ok (.error "no such file") ∧
    read_input ["prog", "in.txt"]
      (fun f => if f = "in.txt" then .ok "hello" else .error "no such file") =
      .ok (.ok "hello") := by
  have h1 := read_input_behavior "prog" "bad.txt" []
    (fun f => if f = "in.txt" then .ok "hello" else .error "no such file")
    "hello" "no such file"
  have h2 := read_input_behavior "prog" "in.txt" []
    (fun f => if f = "in.txt" then .ok "hello" else .error "no such file")
    "hello" "no such file"
  exact ⟨h1.1, h1.2.1 (by simp), h2.2.2 (by simp)⟩

/-- C8: `next_secret_number` maps `[0, 16777216)` into itself (its final
operation is `% 16777216`), so the 2000-fold iteration from any 24-bit secret
stays 24-bit, and the `solve_part_1` sum over `len` lines is at most
`len * 16777215`; with at most `2^39` lines it stays below `2^63`, so the
i64 arithmetic never overflows. -/
theorem day22_secret_in_range (ns : List Nat)
    (h : ∀ n ∈ ns, n < 16777216) :
    (∀ n : Nat, Day22.next_secret_number n < 16777216) ∧
    (∀ n ∈ ns, ∀ k : Nat, Day22.iterate_secret n k < 16777216) ∧
    Day22.sum_part_1 ns ≤ ns.length * 16777215 ∧
    (ns.length ≤ 2 ^ 39 → Day22.sum_part_1 ns < 2 ^ 63) := by
  have hstep : ∀ n : Nat, Day22.next_secret_number n < 16777216 := by
    intro n
    unfold Day22.next_secret_number
    exact Nat.mod_lt _ (by norm_num)
  have hiter : ∀ n ∈ ns, ∀ k : Nat, Day22.iterate_secret n k < 16777216 := by
    intro n hn k
    induction k with
    | zero => simpa [Day22.iterate_secret] using h n hn
    | succ k ih =>
      rw [Day22.iterate_secret, Function.iterate_succ_apply']
      exact hstep _
  have hle : Day22.sum_part_1 ns ≤ ns.length * 16777215 := by
    unfold Day22.sum_part_1
    calc (ns.map (fun n => Day22.iterate_secret n 2000)).sum
        ≤ (ns.map (fun n => Day22.iterate_secret n 2000)).length • 16777215 := by
          refine List.sum_le_card_nsmul _ _ ?_
          intro x hx
          rw [List.mem_map] at hx
          obtain ⟨n, hn, rfl⟩ := hx
          exact Nat.lt_succ_iff.mp (hiter n hn 2000)
      _ = ns.length * 16777215 := by simp [smul_eq_mul]
  refine ⟨hstep, hiter, hle, fun hlen => ?_⟩
  calc Day22.sum_part_1 ns ≤ ns.length * 16777215 := hle
    _ ≤ 2 ^ 39 * 16777215 := Nat.mul_le_mul_right _ hlen
    _ < 2 ^ 63 := by norm_num

/-- Witness for `day22_secret_in_range` on the single starting secret 123. -/
theorem day22_secret_in_range_witness :
    (123 < 16777216 ∧ Day22.next_secret_number 123 = 15887950) ∧
    Day22.iterate_secret 123 2000 < 16777216 ∧
    Day22.sum_part_1 [123] ≤ 1 * 16777215 := by
  have h := day22_secret_in_range [123] (by decide)
  exact ⟨⟨by decide, by decide⟩, h.2.1 123 (by decide) 2000, by
    simpa using h.2.2.1⟩

/-- C9: day 25's part-2 solver is the constant empty string — for every input
it returns `""` without inspecting the input, and in any successful execution
of day 25's `main` the second answer line printed is empty. -/
theorem day25_part2_always_empty :
    (∀ input : String, Day25.solve_part_2 input = "") ∧
    (∀ (α : Type) (solve1 : String → α) (fmt1 : α → String)
      (prog fname : String) (rest : List String)
      (fs : String → Except String String) (aoctime : Option String)
      (measure1 measure2 : Nat → Nat) (input : String) (trace : List Event),
      fs fname = .ok input →
      run solve1 fmt1 Day25.solve_part_2 id (prog :: fname :: rest) fs aoctime
        measure1 measure2 = .ok (.ok trace) →
      (printedLines trace).get? 1 = some "") := by
  refine ⟨fun _ => rfl, ?_⟩
  intro α solve1 fmt1 prog fname rest fs aoctime measure1 measure2 input trace
    hfs hrun
  have htrace := run_trace_eq solve1 fmt1 Day25.solve_part_2 id prog fname rest
    fs aoctime measure1 measure2 input trace hfs hrun
  subst htrace
  cases hena : aoctimeEnabled aoctime <;>
    simp [hena, printedLines, List.filterMap_append, Day25.solve_part_2]

/-- Witness for `day25_part2_always_empty` at a concrete execution. -/
theorem day25_part2_always_empty_witness :
    Day25.solve_part_2 "anything" = "" ∧
    (printedLines [Event.readFile, .invoke 1 "abc", .printLn "3",
      .invoke 2 "abc", .printLn ""]).get? 1 = some "" := by
  have h := day25_part2_always_empty
  refine ⟨h.1 "anything", ?_⟩
  exact h.2 Nat (fun s => s.length) (fun n => toString n) "prog" "in.txt" []
    (fun _ => Except.ok "abc") none (fun _ => 0) (fun _ => 0) "abc"
    [Event.readFile, .invoke 1 "abc", .printLn "3", .invoke 2 "abc",
     .printLn ""] rfl rfl

/-- C10: `Grid::cols` returns the length of row 0 and panics on a grid with
zero rows; `Grid::new(rows, cols)` with `rows ≥ 1` has `rows()` rows,
`cols()` columns, and every cell `T::default()`. -/
theorem grid_new_dimensions (T : Type) [Inhabited T] (rows cols : Nat)
    (hrows : 1 ≤ rows) :
    (Grid.mk ([] : List (List T))).cols = .panicked "index out of bounds" ∧
    (Grid.new T rows cols).rows = rows ∧
    (Grid.new T rows cols).cols = .ok cols ∧
    (∀ row ∈ (Grid.new T rows cols).cells, ∀ cell ∈ row,
      cell = (default : T)) := by
  refine ⟨rfl, by simp [Grid.new, Grid.rows], ?_, ?_⟩
  · cases rows with
    | zero => exact absurd hrows (by decide)
    | succ m => simp [Grid.new, Grid.cols, List.replicate_succ]
  · intro row hrow cell hcell
    have := List.eq_of_mem_replicate hrow
    subst this
    exact List.eq_of_mem_replicate hcell

/-- Witness for `grid_new_dimensions` at a 2 × 3 grid of naturals. -/
theorem grid_new_dimensions_witness :
    (Grid.mk ([] : List (List Nat))).cols = .panicked "index out of bounds" ∧
    (Grid.new Nat 2 3).rows = 2 ∧
    (Grid.new Nat 2 3).cols = .ok 3 ∧
    ((Grid.new Nat 2 3).cells.all (fun row => row.all (fun c => c = 0))) := by
  have h := grid_new_dimensions Nat 2 3 (by decide)
  exact ⟨h.1, h.2.1, h.2.2.1, by decide⟩

/-- C4: day 12's solvers on the third sample grid produce the hard-coded
golden answers asserted by the repository's tests: 1930 for part 1 and 1206
for part 2. -/
theorem day12_sample3_golden :
    Day12.solve_part_1 Day12.sample3 = 1930 ∧
    Day12.solve_part_2 Day12.sample3 = 1206 :=
  ⟨rfl, rfl⟩

end Aoc2024
